import Mathlib

/-!
Verification of the frontend API client module
`dsp_frontend/src/api/client.js` of the natural-query-processing platform.

The module exports three functions:
  * `getBackendBaseUrl()` — resolves the backend origin from the
    `REACT_APP_BACKEND_URL` environment variable with a hardcoded fallback;
  * `apiPost(path, body, token)` — JSON POST helper with optional Bearer auth;
  * `apiGet(path, token)` — GET helper with optional Bearer auth.

The embedding below is a direct transcription of the source:
  * the environment variable is an explicit `Option String` argument
    (JavaScript `undefined` is `none`);
  * JavaScript string truthiness (`""` is falsy) is made explicit;
  * the `fetch` response is a record carrying the status code, the
    `content-type` header (absent = `none`, since `Headers.get` returns
    `null` for a missing header), and the body both as its JSON decoding
    (the value `resp.json()` resolves to) and as its raw text
    (the value `resp.text()` resolves to);
  * a thrown `Error(msg)` is `Except.error msg`, a resolved value is
    `Except.ok`.
-/

namespace ApiClient

/-- Embeds JavaScript `String.prototype.includes`: `headMatch pat s` is true
when `pat` is an initial segment of `s`. -/
def headMatch : List Char → List Char → Bool
  | [], _ => true
  | _ :: _, [] => false
  | p :: ps, c :: cs => p == c && headMatch ps cs

/-- Embeds the search loop of substring containment: `subMatch pat s` is true
when `pat` occurs contiguously somewhere in `s`. -/
def subMatch (pat : List Char) : List Char → Bool
  | [] => headMatch pat []
  | c :: cs => headMatch pat (c :: cs) || subMatch pat cs

/-- Embeds JavaScript `s.includes(pat)` (case-sensitive substring test),
as used on the `content-type` header value in `client.js`. -/
def strIncludes (s pat : String) : Bool := subMatch pat.toList s.toList

/-- Embeds the ECMAScript WhiteSpace/LineTerminator classification used by
`String.prototype.trim`: tab, LF, VT, FF, CR, ZWNBSP (U+FEFF), the line
separators LS (U+2028) and PS (U+2029), and every Space_Separator code
point — space, NBSP (U+00A0), U+1680, U+2000-U+200A, U+202F, U+205F and
U+3000. -/
def isJsWhitespace (c : Char) : Bool :=
  c == ' ' || c == '\t' || c == '\n' || c == '\r' ||
  c == Char.ofNat 11 || c == Char.ofNat 12 || c == Char.ofNat 160 ||
  c == Char.ofNat 0x1680 ||
  (decide (0x2000 ≤ c.toNat) && decide (c.toNat ≤ 0x200A)) ||
  c == Char.ofNat 0x202F || c == Char.ofNat 0x205F || c == Char.ofNat 0x3000 ||
  c == Char.ofNat 0x2028 || c == Char.ofNat 0x2029 || c == Char.ofNat 0xFEFF

/-- Embeds JavaScript `String.prototype.trim`: strip leading and trailing
whitespace, as used by `getBackendBaseUrl` in `client.js` line 10. -/
def jsTrim (s : String) : String :=
  String.mk (((s.data.dropWhile isJsWhitespace).reverse.dropWhile isJsWhitespace).reverse)

/-- Embeds JavaScript `String.prototype.toLowerCase` on the ASCII range.
Used only to formalise the spec's claimed case-insensitive matching rule. -/
def jsToLower (s : String) : String := String.mk (s.data.map Char.toLower)

/-- Embeds the JavaScript idiom `x || ""` applied to a nullable string
(`resp.headers.get("content-type") || ""` in `client.js` lines 28 and 48):
`null` becomes `""`; an empty string stays `""`; any other string is kept. -/
def jsOrEmpty : Option String → String
  | none => ""
  | some v => v

/-- JSON values, the data decoded by `resp.json()` and serialized by
`JSON.stringify` in `client.js`. -/
inductive Json where
  | null : Json
  | bool : Bool → Json
  | num : Int → Json
  | str : String → Json
  | arr : List Json → Json
  | obj : List (String × Json) → Json

/-- Embeds the `typeof v === "string"` test of `client.js` lines 31 and 51,
applied to a value decoded from JSON. -/
def Json.isString : Json → Bool
  | Json.str _ => true
  | _ => false

/-- Hexadecimal digit characters (lowercase), for `JSON.stringify`'s
control-character escapes. -/
def hexDigit (n : Nat) : Char :=
  if n < 10 then Char.ofNat (48 + n) else Char.ofNat (87 + n)

/-- Embeds `JSON.stringify`'s escaping of a single character inside a
string literal. -/
def escapeJsonChar (c : Char) : String :=
  if c == '"' then "\\\""
  else if c == '\\' then "\\\\"
  else if c == '\n' then "\\n"
  else if c == '\r' then "\\r"
  else if c == '\t' then "\\t"
  else if c == Char.ofNat 8 then "\\b"
  else if c == Char.ofNat 12 then "\\f"
  else if c.toNat < 32 then
    "\\u00" ++ String.singleton (hexDigit (c.toNat / 16)) ++ String.singleton (hexDigit (c.toNat % 16))
  else String.singleton c

/-- Embeds `JSON.stringify` on a string: quote and escape. -/
def jsonQuote (s : String) : String :=
  "\"" ++ String.join (s.toList.map escapeJsonChar) ++ "\""

mutual

/-- Embeds `JSON.stringify` (`client.js` lines 26 and 31/51): serialize a
JSON value to its canonical JSON text. -/
def Json.serialize : Json → String
  | Json.null => "null"
  | Json.bool true => "true"
  | Json.bool false => "false"
  | Json.num n => toString n
  | Json.str s => jsonQuote s
  | Json.arr xs => "[" ++ serializeElems xs ++ "]"
  | Json.obj fs => "\x7b" ++ serializeFields fs ++ "\x7d"

/-- Comma-separated serialization of array elements for `Json.serialize`. -/
def serializeElems : List Json → String
  | [] => ""
  | [x] => Json.serialize x
  | x :: y :: xs => Json.serialize x ++ "," ++ serializeElems (y :: xs)

/-- Comma-separated serialization of object fields for `Json.serialize`. -/
def serializeFields : List (String × Json) → String
  | [] => ""
  | [(k, v)] => jsonQuote k ++ ":" ++ Json.serialize v
  | (k, v) :: f :: fs => jsonQuote k ++ ":" ++ Json.serialize v ++ "," ++ serializeFields (f :: fs)

end

/-- Transcribes `getBackendBaseUrl` (`client.js` lines 7-11):
`envUrl && envUrl.trim().length > 0 ? envUrl : "http://localhost:3001"`.
The environment variable `REACT_APP_BACKEND_URL` is the explicit argument
(`none` models an unset variable); JavaScript truthiness of the string
`envUrl` is `envUrl ≠ ""`. -/
def getBackendBaseUrl (env : Option String) : String :=
  match env with
  | none => "http://localhost:3001"
  | some envUrl =>
      if envUrl ≠ "" ∧ 0 < (jsTrim envUrl).length then envUrl else "http://localhost:3001"

/-- A `fetch` response as observed by `client.js`: the status code, the
`content-type` header (`none` when absent, as `Headers.get` returns `null`),
and the body under both decodings the code may request — `jsonBody` is the
value `resp.json()` resolves to and `textBody` the string `resp.text()`
resolves to. Bodies are modelled at the level of their decoded values;
a JSON parse failure would surface as a transport-level exception outside
this model. -/
structure Response where
  status : Nat
  contentType : Option String
  jsonBody : Json
  textBody : String

/-- Models the WHATWG fetch `Response.ok` flag read as `resp.ok` in
`client.js` lines 29 and 49: true exactly when the status code lies in the
range 200..299. -/
def Response.isOk (r : Response) : Bool :=
  decide (200 ≤ r.status) && decide (r.status ≤ 299)

/-- A decoded body: either the JSON value produced by `resp.json()` or the
raw text produced by `resp.text()`. -/
inductive Decoded where
  | json : Json → Decoded
  | text : String → Decoded

/-- Transcribes the decoding selector of `apiGet` (`client.js` lines 48, 50
and 53): `contentType.includes("application/json") ? resp.json() : resp.text()`
where `contentType = resp.headers.get("content-type") || ""`. -/
def apiGetDecode (resp : Response) : Decoded :=
  if strIncludes (jsOrEmpty resp.contentType) "application/json" then Decoded.json resp.jsonBody
  else Decoded.text resp.textBody

/-- Transcribes the decoding selector of `apiPost` (`client.js` lines 28, 30
and 33), textually identical to the one in `apiGet`. -/
def apiPostDecode (resp : Response) : Decoded :=
  if strIncludes (jsOrEmpty resp.contentType) "application/json" then Decoded.json resp.jsonBody
  else Decoded.text resp.textBody

/-- Transcribes the error-message expression appearing identically in
`client.js` lines 31 and 51:
`typeof detail === "string" ? detail : JSON.stringify(detail)`. A value from
`resp.text()` is always a string; a value from `resp.json()` is a string
exactly when the decoded JSON value is a string. -/
def detailMessage : Decoded → String
  | Decoded.text s => s
  | Decoded.json (Json.str s) => s
  | Decoded.json v => Json.serialize v

/-- Transcribes the response handling of `apiGet` (`client.js` lines 48-53):
on `!resp.ok` throw `Error(message)` with the decoded detail's message,
otherwise resolve to the decoded body. -/
def apiGetHandle (resp : Response) : Except String Decoded :=
  if !Response.isOk resp then Except.error (detailMessage (apiGetDecode resp))
  else Except.ok (apiGetDecode resp)

/-- Transcribes the response handling of `apiPost` (`client.js` lines 28-33),
textually identical to the one in `apiGet`. -/
def apiPostHandle (resp : Response) : Except String Decoded :=
  if !Response.isOk resp then Except.error (detailMessage (apiPostDecode resp))
  else Except.ok (apiPostDecode resp)

/-- Discriminates a resolved call from a rejected one. -/
def resultIsOk : Except String Decoded → Bool
  | Except.ok _ => true
  | Except.error _ => false

/-- The request handed to `fetch`: URL, method, header list in insertion
order, and the optional string payload. -/
structure Request where
  url : String
  method : String
  headers : List (String × String)
  body : Option String

/-- Embeds JavaScript truthiness of the optional `token` argument
(`if (token)` in `client.js` lines 20 and 41): absent and empty strings are
falsy. -/
def tokenTruthy : Option String → Bool
  | none => false
  | some t => t != ""

/-- Embeds `body ?? {}` (`client.js` line 26): nullish coalescing replaces
an absent argument (`none`, JavaScript `undefined`) or JSON null
(JavaScript `null`) by the empty object. -/
def bodyOrEmpty : Option Json → Json
  | none => Json.obj []
  | some Json.null => Json.obj []
  | some v => v

/-- Transcribes the request construction of `apiPost` (`client.js` lines
14-27): resolve the base URL, set `Content-Type: application/json`,
conditionally add `Authorization: Bearer <token>`, POST to `base + path`
with payload `JSON.stringify(body ?? {})`. -/
def apiPostRequest (env : Option String) (path : String) (body : Option Json)
    (token : Option String) : Request :=
  let base := getBackendBaseUrl env
  let headers : List (String × String) := [("Content-Type", "application/json")]
  let headers := if tokenTruthy token then headers ++ [("Authorization", "Bearer " ++ jsOrEmpty token)]
    else headers
  { url := base ++ path, method := "POST", headers := headers,
    body := some (Json.serialize (bodyOrEmpty body)) }

/-- Transcribes the request construction of `apiGet` (`client.js` lines
37-47): resolve the base URL, start from an empty header mapping,
conditionally add `Authorization: Bearer <token>`, GET `base + path` with
no payload. -/
def apiGetRequest (env : Option String) (path : String) (token : Option String) : Request :=
  let base := getBackendBaseUrl env
  let headers : List (String × String) :=
    if tokenTruthy token then [("Authorization", "Bearer " ++ jsOrEmpty token)] else []
  { url := base ++ path, method := "GET", headers := headers, body := none }

/-- A complete `apiGet` call: the request issued and the outcome computed
from the transport's response. -/
def apiGetCall (env : Option String) (path : String) (token : Option String)
    (resp : Response) : Request × Except String Decoded :=
  (apiGetRequest env path token, apiGetHandle resp)

/-- A complete `apiPost` call: the request issued and the outcome computed
from the transport's response. -/
def apiPostCall (env : Option String) (path : String) (body : Option Json)
    (token : Option String) (resp : Response) : Request × Except String Decoded :=
  (apiPostRequest env path body token, apiPostHandle resp)

/-- Spec-claimed rule, following the spec's words for comparison with the
code: a case-insensitive substring match of the content-type value. The
code's `strIncludes` is case-sensitive. -/
def includesCaseInsensitive (s pat : String) : Bool :=
  strIncludes (jsToLower s) (jsToLower pat)

/-- Spec-claimed rule, following the spec's words for comparison with the
transport's actual flag: the spec asserts the "ok" indicator means a status
code in the 200-399 range. -/
def okRangeClaimed (status : Nat) : Bool :=
  decide (200 ≤ status) && decide (status ≤ 399)

/-- A concrete failing response: status 500, JSON content type, body
decoding to the object `\x7b"code":"E1"\x7d` (spec testable-property 6). -/
def respFail500 : Response :=
  { status := 500, contentType := some "application/json",
    jsonBody := Json.obj [("code", Json.str "E1")], textBody := "x" }

/-- A concrete successful JSON response: status 200, JSON content type,
body decoding to the object with field `a = 1` (spec testable-property 3). -/
def respJsonOk : Response :=
  { status := 200, contentType := some "application/json",
    jsonBody := Json.obj [("a", Json.num 1)], textBody := "\x7b\"a\":1\x7d" }

/-- A concrete successful plain-text response with body `"hello"`
(spec testable-property 4). -/
def respTextOk : Response :=
  { status := 200, contentType := some "text/plain",
    jsonBody := Json.null, textBody := "hello" }

/-- A concrete successful response with no content-type header at all. -/
def respNoCT : Response :=
  { status := 200, contentType := none, jsonBody := Json.null, textBody := "hello" }

/-- A concrete successful response whose content-type differs from
`application/json` only in letter case. -/
def respCaseVariant : Response :=
  { status := 200, contentType := some "Application/JSON",
    jsonBody := Json.obj [("a", Json.num 1)], textBody := "\x7b\"a\":1\x7d" }

/-- A concrete redirect-status response: status 301, not ok per the fetch
transport, yet inside the spec's claimed 200-399 "ok" range. -/
def resp301 : Response :=
  { status := 301, contentType := none, jsonBody := Json.null, textBody := "Moved" }

/-- A string is non-empty exactly when its length is positive. -/
lemma string_ne_empty_iff_length_pos (s : String) : s ≠ "" ↔ 0 < s.length := by
  cases s with
  | mk data =>
    simp [String.length, String.ext_iff]
    exact List.length_pos.symm.trans (by simp)

/-- C1: for every value of the configured environment variable,
`getBackendBaseUrl` returns the original untrimmed configured string
whenever that value exists and its trimmed form is non-empty, and returns
exactly the literal `"http://localhost:3001"` whenever the value is absent
or blank (trims to empty). -/
theorem getBackendBaseUrl_spec (env : Option String) :
    (∀ s, env = some s → jsTrim s ≠ "" → getBackendBaseUrl env = s) ∧
    (env = none → getBackendBaseUrl env = "http://localhost:3001") ∧
    (∀ s, env = some s → jsTrim s = "" → getBackendBaseUrl env = "http://localhost:3001") := by
  refine ⟨?_, ?_, ?_⟩
  · intro s hs ht
    subst hs
    have hlen : 0 < (jsTrim s).length := (string_ne_empty_iff_length_pos (jsTrim s)).mp ht
    have hne : s ≠ "" := fun h0 => ht (by rw [h0]; rfl)
    show (if s ≠ "" ∧ 0 < (jsTrim s).length then s else "http://localhost:3001") = s
    rw [if_pos ⟨hne, hlen⟩]
  · intro h
    subst h
    rfl
  · intro s hs ht
    subst hs
    have hcond : ¬(s ≠ "" ∧ 0 < (jsTrim s).length) := by
      rintro ⟨-, hpos⟩
      rw [ht] at hpos
      exact absurd hpos (by decide)
    show (if s ≠ "" ∧ 0 < (jsTrim s).length then s else "http://localhost:3001") = "http://localhost:3001"
    rw [if_neg hcond]

/-- Witness for C1 at concrete inputs: a non-blank value is returned
verbatim (untrimmed), while an ASCII-blank value, an ideographic-space
(U+3000) blank value and an absent value all fall back. -/
theorem getBackendBaseUrl_spec_witness :
    getBackendBaseUrl (some "http://example.com") = "http://example.com" ∧
    getBackendBaseUrl (some " http://example.com ") = " http://example.com " ∧
    getBackendBaseUrl (some "   ") = "http://localhost:3001" ∧
    getBackendBaseUrl (some "　") = "http://localhost:3001" ∧
    getBackendBaseUrl none = "http://localhost:3001" :=
  ⟨(getBackendBaseUrl_spec (some "http://example.com")).1 "http://example.com" rfl (by decide),
   (getBackendBaseUrl_spec (some " http://example.com ")).1 " http://example.com " rfl (by decide),
   (getBackendBaseUrl_spec (some "   ")).2.2 "   " rfl (by decide),
   (getBackendBaseUrl_spec (some "　")).2.2 "　" rfl (by decide),
   (getBackendBaseUrl_spec none).2.1 rfl⟩

/-- C8: for every response, the response-decoding and failure-signaling
behavior of `apiPost` is identical to that of `apiGet`: given the same
response the two produce the same resolved value or the same error. -/
theorem get_post_response_equiv (resp : Response) : apiPostHandle resp = apiGetHandle resp := rfl

/-- C3 counterexample: the content-type match of the code is case-sensitive,
not case-insensitive as claimed. For a successful response whose
content-type is `"Application/JSON"`, the spec's claimed case-insensitive
rule selects JSON decoding, yet the code decodes the body as raw text. -/
theorem content_type_case_cex :
    includesCaseInsensitive "Application/JSON" "application/json" = true ∧
    apiGetDecode respCaseVariant = Decoded.text "\x7b\"a\":1\x7d" ∧
    apiGetHandle respCaseVariant = Except.ok (Decoded.text "\x7b\"a\":1\x7d") ∧
    apiPostHandle respCaseVariant = Except.ok (Decoded.text "\x7b\"a\":1\x7d") :=
  ⟨rfl, rfl, rfl, rfl⟩

/-- C3 (amended): `apiGet` and `apiPost` decide between JSON decoding and
raw-text decoding by a case-SENSITIVE substring match of
`"application/json"` against the response's content-type header, and an
absent content-type header is treated as the empty string (never
null/undefined), so the body is decoded as text. -/
theorem content_type_rule (resp : Response) :
    (apiGetDecode resp = Decoded.json resp.jsonBody ↔
        strIncludes (jsOrEmpty resp.contentType) "application/json" = true) ∧
    (apiPostDecode resp = Decoded.json resp.jsonBody ↔
        strIncludes (jsOrEmpty resp.contentType) "application/json" = true) ∧
    (resp.contentType = none →
        jsOrEmpty resp.contentType = "" ∧
        apiGetDecode resp = Decoded.text resp.textBody ∧
        apiPostDecode resp = Decoded.text resp.textBody) := by
  refine ⟨?_, ?_, ?_⟩
  · cases hct : strIncludes (jsOrEmpty resp.contentType) "application/json" <;>
      simp [apiGetDecode, hct]
  · cases hct : strIncludes (jsOrEmpty resp.contentType) "application/json" <;>
      simp [apiPostDecode, hct]
  · intro h
    rw [apiGetDecode, apiPostDecode, h]
    exact ⟨rfl, rfl, rfl⟩

/-- Witness for C3 (amended) at a concrete input: a response without a
content-type header is decoded as raw text by both helpers. -/
theorem content_type_rule_witness :
    apiGetDecode respNoCT = Decoded.text "hello" ∧
    apiPostDecode respNoCT = Decoded.text "hello" :=
  ⟨((content_type_rule respNoCT).2.2 rfl).2.1, ((content_type_rule respNoCT).2.2 rfl).2.2⟩

/-- C4 counterexample: the transport's "ok" flag is not "status in
200-399". At status 301 the spec's claimed range calls the response ok,
yet both helpers reject it. -/
theorem ok_range_cex :
    okRangeClaimed 301 = true ∧
    Response.isOk resp301 = false ∧
    resultIsOk (apiGetHandle resp301) = false ∧
    resultIsOk (apiPostHandle resp301) = false :=
  ⟨rfl, rfl, rfl, rfl⟩

/-- C4 (amended): `apiGet` and `apiPost` signal failure exactly when the
response's status is not flagged ok by the transport, where ok means a
status code in the 200-299 range; the decoded body content is never
inspected to decide success versus failure. -/
theorem status_ok_rule (resp : Response) :
    resultIsOk (apiGetHandle resp) = Response.isOk resp ∧
    resultIsOk (apiPostHandle resp) = Response.isOk resp ∧
    (Response.isOk resp = true ↔ 200 ≤ resp.status ∧ resp.status ≤ 299) ∧
    (∀ j t, resultIsOk (apiGetHandle { resp with jsonBody := j, textBody := t }) =
        resultIsOk (apiGetHandle resp)) ∧
    (∀ j t, resultIsOk (apiPostHandle { resp with jsonBody := j, textBody := t }) =
        resultIsOk (apiPostHandle resp)) := by
  have hup : ∀ j t, Response.isOk { resp with jsonBody := j, textBody := t } = Response.isOk resp :=
    fun _ _ => rfl
  refine ⟨?_, ?_, ?_, ?_, ?_⟩
  · cases hok : Response.isOk resp <;> simp [apiGetHandle, resultIsOk, hok]
  · cases hok : Response.isOk resp <;> simp [apiPostHandle, resultIsOk, hok]
  · simp [Response.isOk]
  · intro j t
    cases hok : Response.isOk resp <;>
      simp [apiGetHandle, resultIsOk, hok, hup]
  · intro j t
    cases hok : Response.isOk resp <;>
      simp [apiPostHandle, resultIsOk, hok, hup]

/-- Witness for C4 (amended) at a concrete input: at status 301 the
outcome flag of `apiGet` agrees with the transport's ok flag, which is
false there. -/
theorem status_ok_rule_witness :
    resultIsOk (apiGetHandle resp301) = Response.isOk resp301 ∧
    Response.isOk resp301 = false :=
  ⟨(status_ok_rule resp301).1, rfl⟩

/-- C2: for every failing response (ok flag false), `apiGet` and `apiPost`
reject with an error whose message is the decoded detail itself when that
decoded detail is a string (a raw-text body, or a JSON body decoding to a
string), and otherwise is the JSON serialization of the decoded detail
structure. -/
theorem api_failure_message (resp : Response) (h : Response.isOk resp = false) :
    (∀ s, apiGetDecode resp = Decoded.text s → apiGetHandle resp = Except.error s) ∧
    (∀ s, apiGetDecode resp = Decoded.json (Json.str s) → apiGetHandle resp = Except.error s) ∧
    (∀ v, apiGetDecode resp = Decoded.json v → Json.isString v = false →
        apiGetHandle resp = Except.error (Json.serialize v)) ∧
    (∀ s, apiPostDecode resp = Decoded.text s → apiPostHandle resp = Except.error s) ∧
    (∀ s, apiPostDecode resp = Decoded.json (Json.str s) → apiPostHandle resp = Except.error s) ∧
    (∀ v, apiPostDecode resp = Decoded.json v → Json.isString v = false →
        apiPostHandle resp = Except.error (Json.serialize v)) := by
  refine ⟨?_, ?_, ?_, ?_, ?_, ?_⟩
  · intro s hdec
    simp [apiGetHandle, h, hdec, detailMessage]
  · intro s hdec
    simp [apiGetHandle, h, hdec, detailMessage]
  · intro v hdec hstr
    cases v <;> simp_all [apiGetHandle, detailMessage, Json.isString]
  · intro s hdec
    simp [apiPostHandle, h, hdec, detailMessage]
  · intro s hdec
    simp [apiPostHandle, h, hdec, detailMessage]
  · intro v hdec hstr
    cases v <;> simp_all [apiPostHandle, detailMessage, Json.isString]

/-- Witness for C2 at a concrete input: a failing status-500 response whose
JSON body decodes to the non-string object `\x7b"code":"E1"\x7d` is rejected
by both helpers with the JSON-serialized form of that object as message. -/
theorem api_failure_message_witness :
    apiGetHandle respFail500 = Except.error "\x7b\"code\":\"E1\"\x7d" ∧
    apiPostHandle respFail500 = Except.error "\x7b\"code\":\"E1\"\x7d" :=
  ⟨((api_failure_message respFail500 rfl).2.2.1
      (Json.obj [("code", Json.str "E1")]) rfl rfl).trans rfl,
   ((api_failure_message respFail500 rfl).2.2.2.2.2
      (Json.obj [("code", Json.str "E1")]) rfl rfl).trans rfl⟩

/-- C5: for every successful response (ok flag true), `apiGet` and `apiPost`
resolve to the JSON-decoded body when the content-type rule selects JSON,
and otherwise resolve to the raw body text as a string. -/
theorem api_success_decode (resp : Response) (h : Response.isOk resp = true) :
    (strIncludes (jsOrEmpty resp.contentType) "application/json" = true →
        apiGetHandle resp = Except.ok (Decoded.json resp.jsonBody) ∧
        apiPostHandle resp = Except.ok (Decoded.json resp.jsonBody)) ∧
    (strIncludes (jsOrEmpty resp.contentType) "application/json" = false →
        apiGetHandle resp = Except.ok (Decoded.text resp.textBody) ∧
        apiPostHandle resp = Except.ok (Decoded.text resp.textBody)) := by
  constructor
  · intro hc
    constructor <;> simp [apiGetHandle, apiPostHandle, apiGetDecode, apiPostDecode, h, hc]
  · intro hc
    constructor <;> simp [apiGetHandle, apiPostHandle, apiGetDecode, apiPostDecode, h, hc]

/-- Witness for C5 at concrete inputs: a successful JSON response resolves
to the decoded object, a successful plain-text response resolves to the raw
string `"hello"`. -/
theorem api_success_decode_witness :
    apiGetHandle respJsonOk = Except.ok (Decoded.json (Json.obj [("a", Json.num 1)])) ∧
    apiGetHandle respTextOk = Except.ok (Decoded.text "hello") :=
  ⟨((api_success_decode respJsonOk rfl).1 rfl).1,
   ((api_success_decode respTextOk rfl).2 rfl).1⟩

/-- C6: every `apiPost` request carries the header
`Content-Type: application/json` and its payload is the JSON serialization
of the body argument, with an absent body replaced by the empty object; in
particular `apiPost("/x", undefined, "tok123")` sends
`Authorization: Bearer tok123` and the payload `\x7b\x7d`. -/
theorem apiPost_request_spec (env : Option String) (path : String) (body : Option Json)
    (token : Option String) :
    ("Content-Type", "application/json") ∈ (apiPostRequest env path body token).headers ∧
    (apiPostRequest env path body token).method = "POST" ∧
    (apiPostRequest env path body token).body = some (Json.serialize (bodyOrEmpty body)) ∧
    (body = none → (apiPostRequest env path body token).body = some "\x7b\x7d") ∧
    (apiPostRequest env "/x" none (some "tok123")).headers =
      [("Content-Type", "application/json"), ("Authorization", "Bearer tok123")] ∧
    (apiPostRequest env "/x" none (some "tok123")).body = some "\x7b\x7d" := by
  refine ⟨?_, rfl, rfl, ?_, ?_, rfl⟩
  · cases htok : tokenTruthy token <;> simp [apiPostRequest, htok]
  · intro hb
    subst hb
    rfl
  · simp [apiPostRequest, tokenTruthy, jsOrEmpty]

/-- Witness for C6 at a concrete input: posting with no body and token
`"tok123"` sends the Content-Type and Authorization headers and the
payload `\x7b\x7d`. -/
theorem apiPost_request_spec_witness :
    (apiPostRequest none "/x" none (some "tok123")).body = some "\x7b\x7d" ∧
    (apiPostRequest none "/x" none (some "tok123")).headers =
      [("Content-Type", "application/json"), ("Authorization", "Bearer tok123")] :=
  ⟨(apiPost_request_spec none "/x" none (some "tok123")).2.2.2.1 rfl,
   (apiPost_request_spec none "/x" none (some "tok123")).2.2.2.2.1⟩

/-- C7: for every call, the request URL of `apiGet` and `apiPost` is
exactly the resolved base URL concatenated with the path argument verbatim,
and the `Authorization` header is present, with value `"Bearer " + token`,
exactly when the token argument is truthy. -/
theorem api_request_url_auth (env : Option String) (path : String) (body : Option Json)
    (token : Option String) :
    (apiGetRequest env path token).url = getBackendBaseUrl env ++ path ∧
    (apiPostRequest env path body token).url = getBackendBaseUrl env ++ path ∧
    ((∃ v, ("Authorization", v) ∈ (apiGetRequest env path token).headers) ↔
        tokenTruthy token = true) ∧
    ((∃ v, ("Authorization", v) ∈ (apiPostRequest env path body token).headers) ↔
        tokenTruthy token = true) ∧
    (tokenTruthy token = true →
        ("Authorization", "Bearer " ++ jsOrEmpty token) ∈ (apiGetRequest env path token).headers ∧
        ("Authorization", "Bearer " ++ jsOrEmpty token) ∈
          (apiPostRequest env path body token).headers) := by
  refine ⟨rfl, rfl, ?_, ?_, ?_⟩
  · cases htok : tokenTruthy token <;> simp [apiGetRequest, htok]
  · cases htok : tokenTruthy token <;> simp [apiPostRequest, htok]
  · intro htok
    constructor <;> simp [apiGetRequest, apiPostRequest, htok]

/-- Witness for C7 at a concrete input: with base `"http://e.com"`, path
`"/p"` and token `"t"`, the GET request URL is `"http://e.com/p"` and the
Authorization header carries `"Bearer t"`. -/
theorem api_request_url_auth_witness :
    (apiGetRequest (some "http://e.com") "/p" (some "t")).url = "http://e.com/p" ∧
    ("Authorization", "Bearer t") ∈ (apiGetRequest (some "http://e.com") "/p" (some "t")).headers :=
  ⟨((api_request_url_auth (some "http://e.com") "/p" none (some "t")).1).trans rfl,
   ((api_request_url_auth (some "http://e.com") "/p" none (some "t")).2.2.2.2 rfl).1⟩

/-- C9: every `apiGet` request's header mapping contains at most one entry,
namely the Authorization header when the token is truthy, and is empty
otherwise; in particular `apiGet` never sends a Content-Type request
header. -/
theorem apiGet_headers_minimal (env : Option String) (path : String) (token : Option String) :
    ((apiGetRequest env path token).headers =
      if tokenTruthy token = true then [("Authorization", "Bearer " ++ jsOrEmpty token)] else []) ∧
    (∀ v, ("Content-Type", v) ∉ (apiGetRequest env path token).headers) ∧
    (apiGetRequest env path token).headers.length ≤ 1 := by
  refine ⟨?_, ?_, ?_⟩
  · cases htok : tokenTruthy token <;> simp [apiGetRequest, htok]
  · intro v hv
    cases htok : tokenTruthy token <;> simp [apiGetRequest, htok] at hv
  · cases htok : tokenTruthy token <;> simp [apiGetRequest, htok]

/-- Witness for C9 at concrete inputs: with no token the GET header mapping
is empty, and it never contains a Content-Type entry. -/
theorem apiGet_headers_minimal_witness :
    (apiGetRequest none "/x" none).headers = [] ∧
    ¬ ("Content-Type", "application/json") ∈ (apiGetRequest none "/x" none).headers :=
  ⟨((apiGet_headers_minimal none "/x" none).1).trans rfl,
   (apiGet_headers_minimal none "/x" none).2.1 "application/json"⟩

/-- C10: `getBackendBaseUrl`, `apiGet` and `apiPost` are deterministic
functions of their explicit arguments, the environment variable's value at
call time and the transport's response: equal inputs yield equal outcomes,
and the request URL re-reads the configured value on every call. -/
theorem api_deterministic (env env' : Option String) (p p' : String) (b b' : Option Json)
    (t t' : Option String) (r r' : Response)
    (henv : env = env') (hp : p = p') (hb : b = b') (ht : t = t') (hr : r = r') :
    getBackendBaseUrl env = getBackendBaseUrl env' ∧
    apiGetCall env p t r = apiGetCall env' p' t' r' ∧
    apiPostCall env p b t r = apiPostCall env' p' b' t' r' ∧
    (apiGetCall env p t r).1.url = getBackendBaseUrl env ++ p ∧
    (apiPostCall env p b t r).1.url = getBackendBaseUrl env ++ p := by
  subst henv hp hb ht hr
  exact ⟨rfl, rfl, rfl, rfl, rfl⟩

/-- Witness for C10 at a concrete input: two textually identical calls
coincide, and the request URL is rebuilt from the configured value. -/
theorem api_deterministic_witness :
    apiGetCall none "/x" none respJsonOk = apiGetCall none "/x" none respJsonOk ∧
    (apiGetCall none "/x" none respJsonOk).1.url = "http://localhost:3001/x" :=
  ⟨(api_deterministic none none "/x" "/x" none none none none respJsonOk respJsonOk
      rfl rfl rfl rfl rfl).2.1,
   ((api_deterministic none none "/x" "/x" none none none none respJsonOk respJsonOk
      rfl rfl rfl rfl rfl).2.2.2.1).trans rfl⟩

end ApiClient
